import Mathlib

/-!
Shallow embedding of `src/bondingCurveModel.js` (class `BondingCurveModel`).

Numbers: the source computes with an arbitrary-precision decimal library
(18 decimal places, round-down) and real exponentiation via `pow`; we model
the numeric domain as `ℝ` with `Real.rpow`, the exact-arithmetic idealization
the spec itself prescribes ("arbitrary-precision decimal representation").

Method-call semantics: every JS method is embedded as a function from the
receiver state (`BondingCurveModel`) to a pair of return value and successor
state.  A method whose body contains no assignment to `this` returns the
receiver unchanged; a method that throws (`calculateSellTokens`) is embedded
with an `Except` return value, and the throw propagates through callers
before any assignment, exactly as the JS exception does.
-/

noncomputable section

/-- The `liquidityMilestones` object set up by the constructor
(lines 26-30 of the source). -/
structure LiquidityMilestones where
  addDexLiquidity : ℝ
  firstBurn : ℝ
  secondBurn : ℝ

/-- The `burnPercentages` object set up by the constructor
(lines 32-36 of the source). -/
structure BurnPercentages where
  firstBurn : ℝ
  secondBurn : ℝ

/-- The mutable/constant fields a `BondingCurveModel` instance carries
(assigned in the constructor, lines 16-37 of the source). -/
structure BondingCurveModel where
  initialSupply : ℝ
  reserveRatio : ℝ
  initialPrice : ℝ
  fee : ℝ
  currentSupply : ℝ
  poolBalance : ℝ
  liquidityMilestones : LiquidityMilestones
  burnPercentages : BurnPercentages

/-- The single error kind the source can raise:
`throw new Error('Insufficient token balance')` (line 104). -/
inductive CurveError where
  | insufficientBalance
deriving DecidableEq

/-- Return value of `calculateBuyTokens` (lines 75-80). -/
structure BuyCalcResult where
  tokensReceived : ℝ
  fee : ℝ
  newPrice : ℝ

/-- Return value of `calculateSellTokens` (lines 116-120). -/
structure SellCalcResult where
  baseReceived : ℝ
  fee : ℝ
  newPrice : ℝ

/-- Return value of `executeBuy` (lines 151-157). -/
structure BuyTxnResult where
  tokensReceived : ℝ
  fee : ℝ
  newPrice : ℝ
  currentSupply : ℝ
  poolBalance : ℝ

/-- Return value of `executeSell` (lines 174-180). -/
structure SellTxnResult where
  baseReceived : ℝ
  fee : ℝ
  newPrice : ℝ
  currentSupply : ℝ
  poolBalance : ℝ

/-- Return value of `burnLiquidity` (lines 216-219). -/
structure BurnResult where
  burnAmount : ℝ
  newPoolBalance : ℝ

namespace BondingCurveModel

/-- `getCurrentPrice` (lines 53-56):
`poolBalance / (currentSupply * reserveRatio)`.  Pure read. -/
def getCurrentPrice (m : BondingCurveModel) : ℝ :=
  m.poolBalance / (m.currentSupply * m.reserveRatio)

/-- `calculatenewSupply(newPoolBalance)` (lines 88-92):
`currentSupply * (newPoolBalance / poolBalance) ^ (1 / reserveRatio)`.
The source's lower-case `n` is kept. -/
def calculatenewSupply (m : BondingCurveModel) (newPoolBalance : ℝ) : ℝ :=
  m.currentSupply * (newPoolBalance / m.poolBalance) ^ ((1 : ℝ) / m.reserveRatio)

/-- `calculatePoolBalance(supply)` (lines 128-132):
`poolBalance * (supply / currentSupply) ^ reserveRatio`. -/
def calculatePoolBalance (m : BondingCurveModel) (supply : ℝ) : ℝ :=
  m.poolBalance * (supply / m.currentSupply) ^ m.reserveRatio

/-- `calculateBuyTokens(baseAmount)` (lines 63-81).  The body performs no
assignment to `this`, so the successor state is the receiver itself.
Note that the source performs no validation of `baseAmount` whatsoever:
there is no non-positive-amount check and no error path. -/
def calculateBuyTokens (m : BondingCurveModel) (baseAmount : ℝ) :
    BuyCalcResult × BondingCurveModel :=
  let feeAmount := baseAmount * m.fee
  let baseAmountAfterFee := baseAmount - feeAmount
  let newPoolBalance := m.poolBalance + baseAmountAfterFee
  let newSupply := m.calculatenewSupply newPoolBalance
  let tokensToReceive := newSupply - m.currentSupply
  ({ tokensReceived := tokensToReceive
     fee := feeAmount
     newPrice := m.poolBalance / (m.currentSupply * m.reserveRatio) }, m)

/-- `calculateSellTokens(tokenAmount)` (lines 99-121).  The only check is
`tokenAmount > currentSupply`, which throws before anything else happens;
otherwise a quote is computed.  No assignment to `this` in either path. -/
def calculateSellTokens (m : BondingCurveModel) (tokenAmount : ℝ) :
    Except CurveError SellCalcResult × BondingCurveModel :=
  if tokenAmount > m.currentSupply then
    (.error .insufficientBalance, m)
  else
    let newSupply := m.currentSupply - tokenAmount
    let newPoolBalance := m.calculatePoolBalance newSupply
    let baseAmountBeforeFee := m.poolBalance - newPoolBalance
    let feeAmount := baseAmountBeforeFee * m.fee
    let baseAmountAfterFee := baseAmountBeforeFee - feeAmount
    (.ok { baseReceived := baseAmountAfterFee
           fee := feeAmount
           newPrice := newPoolBalance / (newSupply * m.reserveRatio) }, m)

/-- `burnLiquidity(percentage)` (lines 210-220): subtracts
`poolBalance * percentage` from the pool. -/
def burnLiquidity (m : BondingCurveModel) (percentage : ℝ) :
    BurnResult × BondingCurveModel :=
  let burnAmount := m.poolBalance * percentage
  let m1 : BondingCurveModel := { m with poolBalance := m.poolBalance - burnAmount }
  ({ burnAmount := burnAmount, newPoolBalance := m1.poolBalance }, m1)

/-- `checkMilestones()` (lines 186-204).  `marketCap` is computed once, from
the state at entry; each threshold is then compared against that one value.
The DEX-liquidity branch's body is comments only (no state change), and the
source keeps no record of milestones having fired: both burn branches run
whenever the market cap is at or above their threshold. -/
def checkMilestones (m : BondingCurveModel) : BondingCurveModel :=
  let marketCap := m.currentSupply * m.getCurrentPrice
  let m1 := if m.liquidityMilestones.addDexLiquidity ≤ marketCap then m else m
  let m2 := if m1.liquidityMilestones.firstBurn ≤ marketCap then
      (m1.burnLiquidity m1.burnPercentages.firstBurn).2
    else m1
  let m3 := if m2.liquidityMilestones.secondBurn ≤ marketCap then
      (m2.burnLiquidity m2.burnPercentages.secondBurn).2
    else m2
  m3

/-- `executeBuy(baseAmount)` (lines 139-158): quote, mutate pool then supply,
run `checkMilestones`, and report from the final state. -/
def executeBuy (m : BondingCurveModel) (baseAmount : ℝ) :
    BuyTxnResult × BondingCurveModel :=
  let r0 := m.calculateBuyTokens baseAmount
  let result := r0.1
  let m0 := r0.2
  let m1 : BondingCurveModel :=
    { m0 with poolBalance := m0.poolBalance + (baseAmount - result.fee) }
  let m2 : BondingCurveModel :=
    { m1 with currentSupply := m1.currentSupply + result.tokensReceived }
  let m3 := m2.checkMilestones
  ({ tokensReceived := result.tokensReceived
     fee := result.fee
     newPrice := m3.getCurrentPrice
     currentSupply := m3.currentSupply
     poolBalance := m3.poolBalance }, m3)

/-- `executeSell(tokenAmount)` (lines 165-181): quote (which may throw,
propagating with no state change), mutate supply then pool, and report.
`checkMilestones` is not invoked here. -/
def executeSell (m : BondingCurveModel) (tokenAmount : ℝ) :
    Except CurveError SellTxnResult × BondingCurveModel :=
  match m.calculateSellTokens tokenAmount with
  | (.error e, m0) => (.error e, m0)
  | (.ok result, m0) =>
    let m1 : BondingCurveModel :=
      { m0 with currentSupply := m0.currentSupply - tokenAmount }
    let m2 : BondingCurveModel :=
      { m1 with poolBalance := m1.poolBalance - (result.baseReceived + result.fee) }
    (.ok { baseReceived := result.baseReceived
           fee := result.fee
           newPrice := m2.getCurrentPrice
           currentSupply := m2.currentSupply
           poolBalance := m2.poolBalance }, m2)

/-- `getMarketCap()` (lines 226-228): `currentSupply * getCurrentPrice()`. -/
def getMarketCap (m : BondingCurveModel) : ℝ :=
  m.currentSupply * m.getCurrentPrice

end BondingCurveModel

/-- Constructor parameters (`params`), each possibly absent. -/
structure CurveParams where
  initialSupply : Option ℝ := none
  reserveRatio : Option ℝ := none
  initialPrice : Option ℝ := none
  fee : Option ℝ := none
  currentSupply : Option ℝ := none

/-- JavaScript `x || d` defaulting as the constructor uses it on numeric
parameters: an absent parameter and an (explicitly supplied) zero are both
falsy and yield the default; any non-zero value is kept. -/
def jsOrDefault (p : Option ℝ) (d : ℝ) : ℝ :=
  match p with
  | none => d
  | some v => if v = 0 then d else v

/-- The constructor (lines 16-37), including
`calculateInitialPoolBalance` (lines 43-47):
`poolBalance = initialSupply * initialPrice * reserveRatio`. -/
def newModel (params : CurveParams) : BondingCurveModel :=
  let initialSupply := jsOrDefault params.initialSupply 800000000
  let reserveRatio := jsOrDefault params.reserveRatio (1 / 5)
  let initialPrice := jsOrDefault params.initialPrice (1 / 10000000)
  let fee := jsOrDefault params.fee (1 / 100)
  let currentSupply := jsOrDefault params.currentSupply initialSupply
  { initialSupply := initialSupply
    reserveRatio := reserveRatio
    initialPrice := initialPrice
    fee := fee
    currentSupply := currentSupply
    poolBalance := initialSupply * initialPrice * reserveRatio
    liquidityMilestones :=
      { addDexLiquidity := 69000, firstBurn := 100000, secondBurn := 1000000 }
    burnPercentages := { firstBurn := 1 / 10, secondBurn := 1 / 20 } }

end

/-! ## Characterization lemmas (shared) -/

namespace BondingCurveModel

theorem calculateSellTokens_of_gt {m : BondingCurveModel} {t : ℝ}
    (h : m.currentSupply < t) :
    m.calculateSellTokens t = (.error .insufficientBalance, m) := by
  simp [calculateSellTokens, h]

theorem calculateSellTokens_of_le {m : BondingCurveModel} {t : ℝ}
    (h : t ≤ m.currentSupply) :
    m.calculateSellTokens t =
      (.ok { baseReceived :=
               (m.poolBalance - m.calculatePoolBalance (m.currentSupply - t))
                 - (m.poolBalance - m.calculatePoolBalance (m.currentSupply - t)) * m.fee
             fee := (m.poolBalance - m.calculatePoolBalance (m.currentSupply - t)) * m.fee
             newPrice := m.calculatePoolBalance (m.currentSupply - t)
               / ((m.currentSupply - t) * m.reserveRatio) }, m) := by
  simp [calculateSellTokens, not_lt.mpr h]

theorem executeSell_of_gt {m : BondingCurveModel} {t : ℝ}
    (h : m.currentSupply < t) :
    m.executeSell t = (.error .insufficientBalance, m) := by
  unfold executeSell
  rw [calculateSellTokens_of_gt h]

theorem executeSell_ok_of_le {m : BondingCurveModel} {t : ℝ}
    (h : t ≤ m.currentSupply) :
    ∃ p, (m.executeSell t).1 = Except.ok p ∧
      p.baseReceived =
        (m.poolBalance - m.calculatePoolBalance (m.currentSupply - t))
          - (m.poolBalance - m.calculatePoolBalance (m.currentSupply - t)) * m.fee := by
  unfold executeSell
  rw [calculateSellTokens_of_le h]
  exact ⟨_, rfl, rfl⟩

theorem executeSell_snd_of_le {m : BondingCurveModel} {t : ℝ}
    (h : t ≤ m.currentSupply) :
    (m.executeSell t).2 =
      { m with currentSupply := m.currentSupply - t
               poolBalance := m.poolBalance -
                 (((m.poolBalance - m.calculatePoolBalance (m.currentSupply - t))
                     - (m.poolBalance - m.calculatePoolBalance (m.currentSupply - t)) * m.fee)
                   + (m.poolBalance - m.calculatePoolBalance (m.currentSupply - t)) * m.fee) } := by
  unfold executeSell
  rw [calculateSellTokens_of_le h]

end BondingCurveModel

/-! ## Claim theorems -/

/-- C8: the quote operations `calculateBuyTokens` and `calculateSellTokens`
are pure: on every input the successor state they return is the receiver
itself — every field unchanged — whether the sell quote succeeds or fails
(the buy quote has no failure path at all). -/
theorem C8_quote_operations_pure (m : BondingCurveModel) (a t : ℝ) :
    (m.calculateBuyTokens a).2 = m ∧ (m.calculateSellTokens t).2 = m := by
  refine ⟨rfl, ?_⟩
  unfold BondingCurveModel.calculateSellTokens
  split <;> rfl

/-- C3: selling strictly more than `currentSupply` makes both the sell quote
and `executeSell` fail with the insufficient-balance error, and the state
`executeSell` leaves behind is the untouched receiver (the throw happens
before any mutation), so every field is unchanged. -/
theorem C3_oversell_fails_state_unchanged (m : BondingCurveModel) (t : ℝ)
    (h : m.currentSupply < t) :
    m.calculateSellTokens t = (.error .insufficientBalance, m) ∧
    m.executeSell t = (.error .insufficientBalance, m) :=
  ⟨BondingCurveModel.calculateSellTokens_of_gt h, BondingCurveModel.executeSell_of_gt h⟩

/-- Witness for C3 at a concrete input: the default-constructed model holds
800000000 tokens; selling 900000000 fails and returns the state unchanged. -/
theorem C3_oversell_witness :
    (newModel {}).calculateSellTokens 900000000 = (.error .insufficientBalance, newModel {}) ∧
    (newModel {}).executeSell 900000000 = (.error .insufficientBalance, newModel {}) :=
  C3_oversell_fails_state_unchanged (newModel {}) 900000000
    (by norm_num [newModel, jsOrDefault])

/-- C5: the quoted price fields are asymmetric.  The buy quote's `newPrice`
is the pre-trade price `poolBalance / (currentSupply * reserveRatio)` of the
un-mutated state, while the sell quote's `newPrice` is the post-trade price
`targetPool / (targetSupply * reserveRatio)` where
`targetPool = poolBalance * (targetSupply / currentSupply) ^ reserveRatio`
is the pool that would result from the sale. -/
theorem C5_price_field_asymmetry (m : BondingCurveModel) (a t : ℝ)
    (h : t ≤ m.currentSupply) :
    (m.calculateBuyTokens a).1.newPrice
      = m.poolBalance / (m.currentSupply * m.reserveRatio) ∧
    Except.map SellCalcResult.newPrice (m.calculateSellTokens t).1 =
      .ok ((m.poolBalance * (((m.currentSupply - t) / m.currentSupply) ^ m.reserveRatio))
        / ((m.currentSupply - t) * m.reserveRatio)) := by
  refine ⟨rfl, ?_⟩
  rw [BondingCurveModel.calculateSellTokens_of_le h]
  rfl

/-- Witness for C5 at a concrete input: the default-constructed model,
buy amount 100, sell amount 5. -/
theorem C5_price_field_asymmetry_witness :
    (BondingCurveModel.calculateBuyTokens (newModel {}) 100).1.newPrice
      = (newModel {}).poolBalance / ((newModel {}).currentSupply * (newModel {}).reserveRatio) ∧
    Except.map SellCalcResult.newPrice ((newModel {}).calculateSellTokens 5).1 =
      .ok (((newModel {}).poolBalance
            * ((((newModel {}).currentSupply - 5) / (newModel {}).currentSupply)
                ^ (newModel {}).reserveRatio))
        / (((newModel {}).currentSupply - 5) * (newModel {}).reserveRatio)) :=
  C5_price_field_asymmetry (newModel {}) 100 5 (by norm_num [newModel, jsOrDefault])

/-- C7: with a positive pool and supply, a positive buy amount and a fee
rate below 1 (the reserve ratio being non-negative, as the data model's
range (0, 1] requires), the buy quote's `tokensReceived` is non-negative. -/
theorem C7_buy_tokens_nonneg (m : BondingCurveModel) (a : ℝ)
    (hP : 0 < m.poolBalance) (hS : 0 < m.currentSupply)
    (hr : 0 ≤ m.reserveRatio) (hf : m.fee < 1) (ha : 0 < a) :
    0 ≤ (m.calculateBuyTokens a).1.tokensReceived := by
  show 0 ≤ m.currentSupply *
      ((m.poolBalance + (a - a * m.fee)) / m.poolBalance) ^ ((1 : ℝ) / m.reserveRatio)
    - m.currentSupply
  have hn : 0 < a - a * m.fee := by nlinarith
  have hx : 1 ≤ (m.poolBalance + (a - a * m.fee)) / m.poolBalance := by
    rw [le_div_iff₀ hP]; linarith
  have hy : (0 : ℝ) ≤ 1 / m.reserveRatio := one_div_nonneg.mpr hr
  have h1 := Real.one_le_rpow hx hy
  nlinarith [mul_le_mul_of_nonneg_left h1 hS.le]

/-- Witness for C7 at a concrete input: the default-constructed model and a
buy of 100 currency units. -/
theorem C7_buy_tokens_nonneg_witness :
    0 ≤ (BondingCurveModel.calculateBuyTokens (newModel {}) 100).1.tokensReceived :=
  C7_buy_tokens_nonneg (newModel {}) 100
    (by norm_num [newModel, jsOrDefault]) (by norm_num [newModel, jsOrDefault])
    (by norm_num [newModel, jsOrDefault]) (by norm_num [newModel, jsOrDefault])
    (by norm_num)

/-- C9: selling the entire supply passes the balance check (the guard only
rejects strictly greater amounts), the sale succeeds, and the resulting
state has `currentSupply = 0`, so the price formula's divisor
`currentSupply * reserveRatio` is zero: `getCurrentPrice` on that state is
literally a division by zero (the source has no guard; the decimal library
would produce an infinity there). -/
theorem C9_sell_entire_supply_divides_by_zero (m : BondingCurveModel) :
    (∃ q, (m.calculateSellTokens m.currentSupply).1 = Except.ok q) ∧
    (∃ p, (m.executeSell m.currentSupply).1 = Except.ok p) ∧
    ((m.executeSell m.currentSupply).2).currentSupply = 0 ∧
    ((m.executeSell m.currentSupply).2).currentSupply
      * ((m.executeSell m.currentSupply).2).reserveRatio = 0 ∧
    ((m.executeSell m.currentSupply).2).getCurrentPrice
      = ((m.executeSell m.currentSupply).2).poolBalance / 0 := by
  have hq := BondingCurveModel.calculateSellTokens_of_le (le_refl m.currentSupply)
  obtain ⟨p, hp, -⟩ := BondingCurveModel.executeSell_ok_of_le (le_refl m.currentSupply)
  have hs := BondingCurveModel.executeSell_snd_of_le (le_refl m.currentSupply)
  have hsup : ((m.executeSell m.currentSupply).2).currentSupply = 0 := by
    rw [hs]; exact sub_self _
  refine ⟨⟨_, by rw [hq]⟩, ⟨p, hp⟩, hsup, by rw [hsup, zero_mul], ?_⟩
  rw [BondingCurveModel.getCurrentPrice, hsup, zero_mul]

/-- C10: JavaScript `||` defaulting treats an explicit `0` as absent: a
constructor call with `fee = 0` yields the default fee `0.01`, and one with
`currentSupply = 0` yields `currentSupply = initialSupply`; consequently no
constructor call can produce a zero fee rate or a zero starting supply. -/
theorem C10_zero_params_get_defaults (p : CurveParams) :
    (p.fee = some 0 → (newModel p).fee = 1 / 100) ∧
    (p.currentSupply = some 0 → (newModel p).currentSupply = (newModel p).initialSupply) ∧
    (newModel p).fee ≠ 0 ∧ (newModel p).currentSupply ≠ 0 := by
  have hdef : ∀ (q : Option ℝ) (d : ℝ), d ≠ 0 → jsOrDefault q d ≠ 0 := by
    intro q d hd
    cases q with
    | none => simpa [jsOrDefault] using hd
    | some v =>
      by_cases hv : v = 0 <;> simp [jsOrDefault, hv, hd]
  have hinit : (newModel p).initialSupply ≠ 0 :=
    hdef p.initialSupply 800000000 (by norm_num)
  refine ⟨?_, ?_, ?_, ?_⟩
  · intro h; simp [newModel, h, jsOrDefault]
  · intro h; simp [newModel, h, jsOrDefault]
  · exact hdef p.fee (1 / 100) (by norm_num)
  · exact hdef p.currentSupply _ hinit

/-- Witness for C10 at a concrete input: explicitly passing `fee = 0` and
`currentSupply = 0` yields the default fee and `currentSupply =
initialSupply`, both non-zero. -/
theorem C10_zero_params_witness :
    (newModel { fee := some 0, currentSupply := some 0 }).fee = 1 / 100 ∧
    (newModel { fee := some 0, currentSupply := some 0 }).currentSupply
      = (newModel { fee := some 0, currentSupply := some 0 }).initialSupply ∧
    (newModel { fee := some 0, currentSupply := some 0 }).fee ≠ 0 ∧
    (newModel { fee := some 0, currentSupply := some 0 }).currentSupply ≠ 0 := by
  obtain ⟨h1, h2, h3, h4⟩ :=
    C10_zero_params_get_defaults { fee := some 0, currentSupply := some 0 }
  exact ⟨h1 rfl, h2 rfl, h3, h4⟩

/-! ## Further characterization lemmas for the execute/milestone path -/

namespace BondingCurveModel

theorem burnLiquidity_snd (m : BondingCurveModel) (f : ℝ) :
    (m.burnLiquidity f).2 = { m with poolBalance := m.poolBalance - m.poolBalance * f } :=
  rfl

theorem checkMilestones_eq (m : BondingCurveModel) :
    m.checkMilestones =
      if m.liquidityMilestones.firstBurn ≤ m.getMarketCap then
        (if m.liquidityMilestones.secondBurn ≤ m.getMarketCap then
          { m with poolBalance :=
              (m.poolBalance - m.poolBalance * m.burnPercentages.firstBurn)
                - (m.poolBalance - m.poolBalance * m.burnPercentages.firstBurn)
                  * m.burnPercentages.secondBurn }
         else
          { m with poolBalance :=
              m.poolBalance - m.poolBalance * m.burnPercentages.firstBurn })
      else
        (if m.liquidityMilestones.secondBurn ≤ m.getMarketCap then
          { m with poolBalance :=
              m.poolBalance - m.poolBalance * m.burnPercentages.secondBurn }
         else m) := by
  unfold checkMilestones getMarketCap
  by_cases h1 : m.liquidityMilestones.firstBurn ≤ m.currentSupply * m.getCurrentPrice <;>
    by_cases h2 : m.liquidityMilestones.secondBurn ≤ m.currentSupply * m.getCurrentPrice <;>
      simp [h1, h2, burnLiquidity]

theorem checkMilestones_currentSupply (m : BondingCurveModel) :
    m.checkMilestones.currentSupply = m.currentSupply := by
  rw [checkMilestones_eq]; split_ifs <;> rfl

theorem checkMilestones_reserveRatio (m : BondingCurveModel) :
    m.checkMilestones.reserveRatio = m.reserveRatio := by
  rw [checkMilestones_eq]; split_ifs <;> rfl

theorem checkMilestones_fee (m : BondingCurveModel) :
    m.checkMilestones.fee = m.fee := by
  rw [checkMilestones_eq]; split_ifs <;> rfl

theorem checkMilestones_poolBalance_bounds (m : BondingCurveModel)
    (h0 : 0 ≤ m.poolBalance)
    (hb1 : 0 ≤ m.burnPercentages.firstBurn) (hb1' : m.burnPercentages.firstBurn ≤ 1)
    (hb2 : 0 ≤ m.burnPercentages.secondBurn) (hb2' : m.burnPercentages.secondBurn ≤ 1) :
    0 ≤ m.checkMilestones.poolBalance ∧ m.checkMilestones.poolBalance ≤ m.poolBalance := by
  have k1 : 0 ≤ (m.poolBalance * (1 - m.burnPercentages.firstBurn))
      * (1 - m.burnPercentages.secondBurn) :=
    mul_nonneg (mul_nonneg h0 (sub_nonneg.mpr hb1')) (sub_nonneg.mpr hb2')
  have k2 : 0 ≤ (m.poolBalance * (1 - m.burnPercentages.firstBurn))
      * m.burnPercentages.secondBurn :=
    mul_nonneg (mul_nonneg h0 (sub_nonneg.mpr hb1')) hb2
  have k3 : 0 ≤ m.poolBalance * m.burnPercentages.firstBurn := mul_nonneg h0 hb1
  have k4 : 0 ≤ m.poolBalance * m.burnPercentages.secondBurn := mul_nonneg h0 hb2
  have k5 : 0 ≤ m.poolBalance * (1 - m.burnPercentages.firstBurn) :=
    mul_nonneg h0 (sub_nonneg.mpr hb1')
  have k6 : 0 ≤ m.poolBalance * (1 - m.burnPercentages.secondBurn) :=
    mul_nonneg h0 (sub_nonneg.mpr hb2')
  rw [checkMilestones_eq]
  split_ifs <;> refine ⟨?_, ?_⟩ <;> dsimp only <;> nlinarith

theorem executeBuy_snd (m : BondingCurveModel) (a : ℝ) :
    (m.executeBuy a).2 =
      BondingCurveModel.checkMilestones
        { m with poolBalance := m.poolBalance + (a - a * m.fee)
                 currentSupply := m.currentSupply
                   + (m.calculatenewSupply (m.poolBalance + (a - a * m.fee))
                       - m.currentSupply) } :=
  rfl

theorem executeBuy_tokensReceived (m : BondingCurveModel) (a : ℝ) :
    (m.executeBuy a).1.tokensReceived =
      m.calculatenewSupply (m.poolBalance + (a - a * m.fee)) - m.currentSupply :=
  rfl

end BondingCurveModel

/-! ## A concrete reachable state used by counterexamples and failing inputs -/

/-- A state produced by the constructor itself: 2 billion initial supply at
price 0.0001 with reserve ratio 1 gives `poolBalance = 200000`; the resumed
`currentSupply` is 1000 and the fee is the default 0.01.  Its market cap is
`200000`, above the DEX-listing (69000) and first-burn (100000) thresholds. -/
noncomputable def mDemo : BondingCurveModel :=
  newModel { initialSupply := some 2000000000, reserveRatio := some 1,
             initialPrice := some (1 / 10000), currentSupply := some 1000 }

theorem mDemo_eq :
    mDemo =
      { initialSupply := 2000000000, reserveRatio := 1, initialPrice := 1 / 10000,
        fee := 1 / 100, currentSupply := 1000, poolBalance := 200000,
        liquidityMilestones :=
          { addDexLiquidity := 69000, firstBurn := 100000, secondBurn := 1000000 },
        burnPercentages := { firstBurn := 1 / 10, secondBurn := 1 / 20 } } := by
  norm_num [mDemo, newModel, jsOrDefault]

/-- C2 counterexample: `executeSell` does not evaluate milestones.  From
`mDemo`, selling 500 tokens leaves a state whose market cap (100000) has
reached the first-burn threshold, yet the pool `executeSell` returns is
100000: running the milestone evaluation on that returned state would burn
it down to 90000, so `executeSell` demonstrably returned without invoking
it (an `executeBuy` reaching the same cap would have burned). -/
theorem C2_counterexample_sell_skips_milestones :
    ((mDemo.executeSell 500).2).poolBalance = 100000 ∧
    100000 ≤ ((mDemo.executeSell 500).2).getMarketCap ∧
    (((mDemo.executeSell 500).2).checkMilestones).poolBalance = 90000 := by
  have h500 : (500 : ℝ) ≤ mDemo.currentSupply := by rw [mDemo_eq]; norm_num
  have hs := BondingCurveModel.executeSell_snd_of_le h500
  have hstate : (mDemo.executeSell 500).2 =
      { initialSupply := 2000000000, reserveRatio := 1, initialPrice := 1 / 10000,
        fee := 1 / 100, currentSupply := 500, poolBalance := 100000,
        liquidityMilestones :=
          { addDexLiquidity := 69000, firstBurn := 100000, secondBurn := 1000000 },
        burnPercentages := { firstBurn := 1 / 10, secondBurn := 1 / 20 } } := by
    rw [hs, mDemo_eq]
    norm_num [BondingCurveModel.calculatePoolBalance, Real.rpow_one]
  rw [hstate]
  refine ⟨rfl, ?_, ?_⟩
  · norm_num [BondingCurveModel.getMarketCap, BondingCurveModel.getCurrentPrice]
  · rw [BondingCurveModel.checkMilestones_eq]
    norm_num [BondingCurveModel.getMarketCap, BondingCurveModel.getCurrentPrice]

/-- C2 as amended: milestone evaluation runs after `executeBuy` only.
`executeBuy`'s final state is exactly `checkMilestones` applied to the
post-mutation state, while `executeSell`'s final state is the bare mutated
record, with no milestone evaluation applied. -/
theorem C2_amended_milestones_buy_only (m : BondingCurveModel) (a t : ℝ)
    (h : t ≤ m.currentSupply) :
    (m.executeBuy a).2 =
      BondingCurveModel.checkMilestones
        { m with poolBalance := m.poolBalance + (a - a * m.fee)
                 currentSupply := m.currentSupply
                   + (m.calculatenewSupply (m.poolBalance + (a - a * m.fee))
                       - m.currentSupply) } ∧
    (m.executeSell t).2 =
      { m with currentSupply := m.currentSupply - t
               poolBalance := m.poolBalance -
                 (((m.poolBalance - m.calculatePoolBalance (m.currentSupply - t))
                     - (m.poolBalance - m.calculatePoolBalance (m.currentSupply - t)) * m.fee)
                   + (m.poolBalance - m.calculatePoolBalance (m.currentSupply - t)) * m.fee) } :=
  ⟨BondingCurveModel.executeBuy_snd m a, BondingCurveModel.executeSell_snd_of_le h⟩

/-- Witness for the amended C2 at a concrete input: `mDemo`, a buy of 100
and a sell of 500. -/
theorem C2_amended_milestones_witness :
    (mDemo.executeBuy 100).2 =
      BondingCurveModel.checkMilestones
        { mDemo with poolBalance := mDemo.poolBalance + (100 - 100 * mDemo.fee)
                     currentSupply := mDemo.currentSupply
                       + (mDemo.calculatenewSupply (mDemo.poolBalance + (100 - 100 * mDemo.fee))
                           - mDemo.currentSupply) } ∧
    (mDemo.executeSell 500).2 =
      { mDemo with currentSupply := mDemo.currentSupply - 500
                   poolBalance := mDemo.poolBalance -
                     (((mDemo.poolBalance - mDemo.calculatePoolBalance (mDemo.currentSupply - 500))
                         - (mDemo.poolBalance
                             - mDemo.calculatePoolBalance (mDemo.currentSupply - 500)) * mDemo.fee)
                       + (mDemo.poolBalance
                           - mDemo.calculatePoolBalance (mDemo.currentSupply - 500)) * mDemo.fee) } :=
  C2_amended_milestones_buy_only mDemo 100 500 (by rw [mDemo_eq]; norm_num)

/-- C4 counterexample: a non-positive amount is not rejected.  At `mDemo`
the amount 0 yields a successful buy quote `{tokensReceived 0, fee 0,
newPrice 200}` and a successful sell quote `ok {baseReceived 0, fee 0,
newPrice 200}` — no `InvalidAmount` error exists anywhere in the code
(the buy quote's type has no error path at all). -/
theorem C4_counterexample_zero_amount_quoted :
    (mDemo.calculateBuyTokens 0).1 = { tokensReceived := 0, fee := 0, newPrice := 200 } ∧
    (mDemo.calculateSellTokens 0).1 =
      Except.ok { baseReceived := 0, fee := 0, newPrice := 200 } := by
  rw [mDemo_eq]
  constructor
  · norm_num [BondingCurveModel.calculateBuyTokens, BondingCurveModel.calculatenewSupply,
      Real.one_rpow]
  · norm_num [BondingCurveModel.calculateSellTokens, BondingCurveModel.calculatePoolBalance,
      Real.one_rpow]

/-- C4 as amended: the code performs no amount validation.  For every
amount `a ≤ 0` (with a non-negative supply) the buy quote is still computed
from the formulas — its fee field is `a * feeRate` — and the sell quote
returns a successful result; neither returns any error for non-positive
input. -/
theorem C4_amended_no_input_validation (m : BondingCurveModel) (a : ℝ)
    (ha : a ≤ 0) (hs : 0 ≤ m.currentSupply) :
    (m.calculateBuyTokens a).1.fee = a * m.fee ∧
    ∃ q, (m.calculateSellTokens a).1 = Except.ok q := by
  refine ⟨rfl, ?_⟩
  have h := BondingCurveModel.calculateSellTokens_of_le (le_trans ha hs)
  exact ⟨_, by rw [h]⟩

/-- Witness for the amended C4 at a concrete input: `mDemo` and the
negative amount -5. -/
theorem C4_amended_no_input_validation_witness :
    (mDemo.calculateBuyTokens (-5)).1.fee = (-5) * mDemo.fee ∧
    ∃ q, (mDemo.calculateSellTokens (-5)).1 = Except.ok q :=
  C4_amended_no_input_validation mDemo (-5) (by norm_num)
    (by rw [mDemo_eq]; norm_num)

/-- C1: the code keeps no record of fired milestones, so a burn milestone
re-fires on every evaluation while the market cap stays at or above its
threshold.  From the constructor-reachable state `mDemo` (market cap
200000, above the 100000 first-burn threshold), a buy of 0 changes neither
pool nor supply before milestone evaluation, yet the first burn fires and
takes 10% of the pool; a second identical buy fires the same milestone
again: pool 200000 -> 180000 -> 162000.  The spec's at-most-once property
is violated by the code. -/
theorem C1_first_burn_fires_twice :
    mDemo.poolBalance = 200000 ∧
    ((mDemo.executeBuy 0).2).poolBalance = 180000 ∧
    (((mDemo.executeBuy 0).2).executeBuy 0).2.poolBalance = 162000 := by
  have h1 : (mDemo.executeBuy 0).2 =
      { initialSupply := 2000000000, reserveRatio := 1, initialPrice := 1 / 10000,
        fee := 1 / 100, currentSupply := 1000, poolBalance := 180000,
        liquidityMilestones :=
          { addDexLiquidity := 69000, firstBurn := 100000, secondBurn := 1000000 },
        burnPercentages := { firstBurn := 1 / 10, secondBurn := 1 / 20 } } := by
    rw [BondingCurveModel.executeBuy_snd, mDemo_eq]
    have hmut :
        ({ initialSupply := 2000000000, reserveRatio := 1, initialPrice := 1 / 10000,
           fee := 1 / 100, currentSupply := 1000, poolBalance := 200000,
           liquidityMilestones :=
             { addDexLiquidity := 69000, firstBurn := 100000, secondBurn := 1000000 },
           burnPercentages := { firstBurn := 1 / 10, secondBurn := 1 / 20 } }
          : BondingCurveModel).calculatenewSupply 200000 = 1000 := by
      norm_num [BondingCurveModel.calculatenewSupply, Real.one_rpow]
    norm_num [hmut, BondingCurveModel.checkMilestones_eq, BondingCurveModel.getMarketCap,
      BondingCurveModel.getCurrentPrice]
  have h2 : (((mDemo.executeBuy 0).2).executeBuy 0).2 =
      { initialSupply := 2000000000, reserveRatio := 1, initialPrice := 1 / 10000,
        fee := 1 / 100, currentSupply := 1000, poolBalance := 162000,
        liquidityMilestones :=
          { addDexLiquidity := 69000, firstBurn := 100000, secondBurn := 1000000 },
        burnPercentages := { firstBurn := 1 / 10, secondBurn := 1 / 20 } } := by
    rw [h1, BondingCurveModel.executeBuy_snd]
    have hmut :
        ({ initialSupply := 2000000000, reserveRatio := 1, initialPrice := 1 / 10000,
           fee := 1 / 100, currentSupply := 1000, poolBalance := 180000,
           liquidityMilestones :=
             { addDexLiquidity := 69000, firstBurn := 100000, secondBurn := 1000000 },
           burnPercentages := { firstBurn := 1 / 10, secondBurn := 1 / 20 } }
          : BondingCurveModel).calculatenewSupply 180000 = 1000 := by
      norm_num [BondingCurveModel.calculatenewSupply, Real.one_rpow]
    norm_num [hmut, BondingCurveModel.checkMilestones_eq, BondingCurveModel.getMarketCap,
      BondingCurveModel.getCurrentPrice]
  refine ⟨by rw [mDemo_eq], by rw [h1], by rw [h2]⟩

/-! ## The buy-then-sell round trip (claim C6) -/

/-- Core arithmetic bound: selling back exactly the tokens a buy created,
from any pool `PB` no larger than the post-buy pool (burns can only have
shrunk it), returns at most the original buy amount.  `S1` is the post-buy
supply and `g` the gross currency the sale releases. -/
theorem sell_after_buy_bound (P S r φ a PB S1 g : ℝ)
    (hP : 0 < P) (hS : 0 < S) (hf0 : 0 ≤ φ) (hf1 : φ < 1) (hr : 0 < r) (ha : 0 < a)
    (hPB0 : 0 ≤ PB) (hPB : PB ≤ P + (a - a * φ))
    (hS1 : S1 = S * ((P + (a - a * φ)) / P) ^ ((1 : ℝ) / r))
    (hg : g = PB - PB * ((S1 - (S1 - S)) / S1) ^ r) :
    g - g * φ ≤ a := by
  have hn : 0 < a - a * φ := by nlinarith
  have hP1 : 0 < P + (a - a * φ) := by linarith
  have hx : 0 < (P + (a - a * φ)) / P := div_pos hP1 hP
  have hSS : S1 - (S1 - S) = S := by ring
  rw [hSS] at hg
  have hkey : (S / S1) ^ r = P / (P + (a - a * φ)) := by
    rw [hS1, div_mul_eq_div_div, div_self hS.ne', one_div, ← Real.rpow_neg hx.le,
      ← Real.rpow_mul hx.le]
    have hrr : -((1 : ℝ) / r) * r = -1 := by
      rw [neg_mul, one_div, inv_mul_cancel₀ hr.ne']
    rw [hrr, Real.rpow_neg_one, inv_div]
  rw [hg, hkey]
  have hd1 : P / (P + (a - a * φ)) ≤ 1 := by rw [div_le_one hP1]; linarith
  have hd0 : 0 ≤ P / (P + (a - a * φ)) := le_of_lt (div_pos hP hP1)
  have hPd : (P + (a - a * φ)) * (P / (P + (a - a * φ))) = P := by field_simp
  have hgle : PB - PB * (P / (P + (a - a * φ))) ≤ a - a * φ := by
    nlinarith [mul_nonneg (sub_nonneg.mpr hPB) (sub_nonneg.mpr hd1)]
  have hg0 : 0 ≤ PB - PB * (P / (P + (a - a * φ))) := by
    nlinarith [mul_nonneg hPB0 (sub_nonneg.mpr hd1)]
  have h2φ : (0 : ℝ) ≤ 2 - φ := by linarith
  nlinarith [mul_le_mul_of_nonneg_right hgle (sub_nonneg.mpr (le_of_lt hf1)),
    mul_nonneg (mul_nonneg ha.le hf0) h2φ]

/-- C6: from a state with positive pool and supply, fee rate in [0, 1),
positive reserve ratio and burn fractions in [0, 1] (the ranges the spec's
data model fixes; the constructor always sets 0.1 and 0.05), executing a
buy of any `a > 0` and then selling exactly the `tokensReceived` that buy
returned succeeds and nets at most `a`: fees (and any interleaved milestone
burn) erode value, and no buy/sell round trip creates value. -/
theorem C6_roundtrip_no_value_creation (m : BondingCurveModel) (a : ℝ)
    (hP : 0 < m.poolBalance) (hS : 0 < m.currentSupply)
    (hf0 : 0 ≤ m.fee) (hf1 : m.fee < 1) (hr : 0 < m.reserveRatio) (ha : 0 < a)
    (hb1 : 0 ≤ m.burnPercentages.firstBurn) (hb1' : m.burnPercentages.firstBurn ≤ 1)
    (hb2 : 0 ≤ m.burnPercentages.secondBurn) (hb2' : m.burnPercentages.secondBurn ≤ 1) :
    ∃ p, (((m.executeBuy a).2).executeSell ((m.executeBuy a).1.tokensReceived)).1
        = Except.ok p ∧ p.baseReceived ≤ a := by
  have hn : 0 < a - a * m.fee := by nlinarith
  have hP1pos : 0 < m.poolBalance + (a - a * m.fee) := by linarith
  have hcs : (m.executeBuy a).2.currentSupply =
      m.currentSupply + (m.calculatenewSupply (m.poolBalance + (a - a * m.fee))
        - m.currentSupply) := by
    rw [BondingCurveModel.executeBuy_snd]
    exact BondingCurveModel.checkMilestones_currentSupply _
  have hrr : (m.executeBuy a).2.reserveRatio = m.reserveRatio := by
    rw [BondingCurveModel.executeBuy_snd]
    exact BondingCurveModel.checkMilestones_reserveRatio _
  have hfe : (m.executeBuy a).2.fee = m.fee := by
    rw [BondingCurveModel.executeBuy_snd]
    exact BondingCurveModel.checkMilestones_fee _
  have hbounds : 0 ≤ (m.executeBuy a).2.poolBalance ∧
      (m.executeBuy a).2.poolBalance ≤ m.poolBalance + (a - a * m.fee) := by
    rw [BondingCurveModel.executeBuy_snd]
    exact BondingCurveModel.checkMilestones_poolBalance_bounds _
      (le_of_lt hP1pos) hb1 hb1' hb2 hb2'
  have htle : (m.executeBuy a).1.tokensReceived ≤ (m.executeBuy a).2.currentSupply := by
    rw [BondingCurveModel.executeBuy_tokensReceived, hcs]; linarith
  obtain ⟨p, hp, hpbase⟩ := BondingCurveModel.executeSell_ok_of_le htle
  refine ⟨p, hp, ?_⟩
  rw [hpbase, BondingCurveModel.calculatePoolBalance, hfe, hrr, hcs,
    BondingCurveModel.executeBuy_tokensReceived]
  have hsimp : m.currentSupply + (m.calculatenewSupply (m.poolBalance + (a - a * m.fee))
      - m.currentSupply) = m.calculatenewSupply (m.poolBalance + (a - a * m.fee)) := by
    ring
  rw [hsimp]
  exact sell_after_buy_bound m.poolBalance m.currentSupply m.reserveRatio m.fee a
    ((m.executeBuy a).2).poolBalance
    (m.calculatenewSupply (m.poolBalance + (a - a * m.fee))) _
    hP hS hf0 hf1 hr ha hbounds.1 hbounds.2 rfl rfl

/-- Witness for C6 at a concrete input: `mDemo` and a buy of 100. -/
theorem C6_roundtrip_witness :
    ∃ p, (((mDemo.executeBuy 100).2).executeSell
        ((mDemo.executeBuy 100).1.tokensReceived)).1 = Except.ok p ∧
      p.baseReceived ≤ 100 :=
  C6_roundtrip_no_value_creation mDemo 100
    (by rw [mDemo_eq]; norm_num) (by rw [mDemo_eq]; norm_num)
    (by rw [mDemo_eq]; norm_num) (by rw [mDemo_eq]; norm_num)
    (by rw [mDemo_eq]; norm_num) (by norm_num)
    (by rw [mDemo_eq]; norm_num) (by rw [mDemo_eq]; norm_num)
    (by rw [mDemo_eq]; norm_num) (by rw [mDemo_eq]; norm_num)
